import Mathlib

/-!
Verification of the japi-core typed handler/middleware subsystem.

Shallow embedding of the Go sources:
* `handler/nullable.go` — the `Nullable[T]` optional-value wrapper.
* `db/query.go` — the `WithTx` transaction helper.
* `db` connect (`src/unnamed/part_003`) — pool-configuration validation.
* `handler` adapter (`src/unnamed/part_005`, current revision with request-context
  propagation) — `AdaptHandler` and the error classification it performs, together
  with `core/response.go`'s `APIError`, `NewAPIError`, `WriteAPIError` and `Error`.
* `handler` route composition (`src/unnamed/part_005`) — `MakeHandler`'s
  middleware-application loop and route collection.
* the v3.0 per-instance `Registry` (tests in `src/unnamed/part_006`, callers in
  `src/swagger/routes.go`), whose implementation file is absent from the snapshot
  and is therefore modelled from the spec where noted.

Go `panic` is modelled as a dedicated result constructor carrying the panic value,
Go errors as an inductive mirroring the sentinel/wrapping structure the code uses,
and response/log side effects as explicit action lists.
-/

namespace Japi

/-! ## Nullable (src/handler/nullable.go) -/

/-- Embedding of `Nullable[T]`: a value plus a `hasValue` flag.  The Go zero
value of `T` is modelled by `Inhabited.default`. -/
structure Nullable (T : Type) where
  value : T
  hasValue : Bool
deriving Repr, DecidableEq

/-- Go `NewNullable` creates a Nullable containing the given value
(nullable.go lines 38-43). -/
def NewNullable {T : Type} (value : T) : Nullable T :=
  { value := value, hasValue := true }

/-- Go `Nil` returns an empty Nullable with no value (nullable.go lines 46-50);
the `value` field is left at the Go zero value, modelled as `default`. -/
def Nil (T : Type) [Inhabited T] : Nullable T :=
  { value := default, hasValue := false }

/-- Go `HasValue` (nullable.go lines 56-58). -/
def Nullable.HasValue {T : Type} (n : Nullable T) : Bool :=
  n.hasValue

/-- Result of a Go function that may `panic`: either a normal return or a
propagating panic carrying the panic value (a string for `Nullable.Value`).
A Go `panic` is recoverable by a deferred `recover`; it is not `os.Exit`. -/
inductive PanicOr (T : Type) where
  | panicked (msg : String) : PanicOr T
  | returned (v : T) : PanicOr T
deriving Repr, DecidableEq

/-- Go `Value` returns the contained value or panics if no value is present
(nullable.go lines 73-78). -/
def Nullable.Value {T : Type} (n : Nullable T) : PanicOr T :=
  if !n.hasValue then
    .panicked "japi-core: attempted to access Nullable value when HasValue is false"
  else
    .returned n.value

/-- Go `TryValue` returns the contained value and a presence boolean
(nullable.go lines 92-94). -/
def Nullable.TryValue {T : Type} (n : Nullable T) : T × Bool :=
  (n.value, n.hasValue)

/-- Go `ValueOrDefault` returns the value if present, otherwise the zero value of
`T` (nullable.go lines 108-114). -/
def Nullable.ValueOrDefault {T : Type} [Inhabited T] (n : Nullable T) : T :=
  if n.hasValue then n.value else default

/-- Go `ValueOr` returns the value if present, otherwise the provided default
(nullable.go lines 123-128). -/
def Nullable.ValueOr {T : Type} (n : Nullable T) (defaultValue : T) : T :=
  if n.hasValue then n.value else defaultValue

/-! ## WithTx (src/db/query.go lines 21-49)

The callback's behaviour is modelled as an outcome: normal return of a value,
return of an error, or a panic.  The transaction handle's own fallibility is
modelled by optional errors for `Begin`, `Rollback` and `Commit`.  `WithTx`
returns its Go result together with the chronological list of transaction
events that occurred, which makes "rolled back before the panic propagates"
and "nothing was committed" directly observable. -/

/-- Behaviour of the caller-supplied callback `fn`: it either returns a value,
returns an error (a string, matching Go `error` rendering), or panics with an
arbitrary panic value of type `V`. -/
inductive FnOutcome (T V : Type) where
  | ok (t : T) : FnOutcome T V
  | err (e : String) : FnOutcome T V
  | panicked (p : V) : FnOutcome T V
deriving Repr, DecidableEq

/-- Fallibility of the transaction handle: `none` means the call succeeds. -/
structure TxBehavior where
  rollbackErr : Option String
  commitErr : Option String
deriving Repr, DecidableEq

/-- Transaction-lifecycle events, in the order they happen. -/
inductive TxEvent where
  | beganTx : TxEvent
  | ranFn : TxEvent
  | rolledBack : TxEvent
  | committed : TxEvent
deriving Repr, DecidableEq

/-- Result of `WithTx`: the `(T, error)` pair collapsed to the interesting
cases, or a propagating panic. -/
inductive WithTxResult (T V : Type) where
  | ok (t : T) : WithTxResult T V
  | err (e : String) : WithTxResult T V
  | panicked (p : V) : WithTxResult T V
deriving Repr, DecidableEq

/-- Embedding of `WithTx` (db/query.go lines 21-49).  `beginErr` is the result
of `db.Begin()`; `tx` carries the rollback/commit fallibility; `fn` is the
callback's behaviour on the transaction.  Returns the Go-level result and the
chronological transaction events.  The deferred `recover` block rolls back
(ignoring the rollback error) and re-raises the same panic value; the
error path rolls back and returns the callback's error unchanged unless the
rollback itself fails, in which case a combined message is returned; the
success path commits, wrapping a commit failure. -/
def WithTx {T V : Type} (beginErr : Option String) (tx : TxBehavior)
    (fn : FnOutcome T V) : WithTxResult T V × List TxEvent :=
  match beginErr with
  | some e => (.err ("failed to begin transaction: " ++ e), [])
  | none =>
    match fn with
    | .panicked p => (.panicked p, [.beganTx, .ranFn, .rolledBack])
    | .err e =>
      match tx.rollbackErr with
      | some rbErr =>
        (.err ("transaction failed: " ++ e ++ ", rollback failed: " ++ rbErr),
          [.beganTx, .ranFn, .rolledBack])
      | none => (.err e, [.beganTx, .ranFn, .rolledBack])
    | .ok t =>
      match tx.commitErr with
      | some ce => (.err ("failed to commit transaction: " ++ ce), [.beganTx, .ranFn, .committed])
      | none => (.ok t, [.beganTx, .ranFn, .committed])

/-! ## Database connect (src/unnamed/part_003 lines 27-76) -/

/-- Embedding of `db.Config`.  Durations are nanosecond counts, as Go's
`time.Duration` is an integer nanosecond count. -/
structure DBConfig where
  host : String
  port : Int
  user : String
  password : String
  database : String
  sslMode : String
  maxOpenConns : Int
  maxIdleConns : Int
  maxLifetime : Int
  maxIdleTime : Int
deriving Repr, DecidableEq

/-- Connection-level steps `Connect` can take against the database. -/
inductive ConnectStep where
  | openDB : ConnectStep
  | ping : ConnectStep
deriving Repr, DecidableEq

/-- The defaults block of `Connect` (part_003 lines 38-50): each field equal to
the Go zero value receives its documented default (25/25/5min/5min). -/
def applyConnectDefaults (config : DBConfig) : DBConfig :=
  { config with
    maxOpenConns := if config.maxOpenConns = 0 then 25 else config.maxOpenConns
    maxIdleConns := if config.maxIdleConns = 0 then 25 else config.maxIdleConns
    maxLifetime := if config.maxLifetime = 0 then 5 * 60 * 1000000000 else config.maxLifetime
    maxIdleTime := if config.maxIdleTime = 0 then 5 * 60 * 1000000000 else config.maxIdleTime }

/-- Embedding of `Connect` (part_003 lines 27-76).  `openErr` and `pingErr`
model the results of `sql.Open` and `db.Ping`.  Returns either the
pool-configured settings or an error, together with the list of connection
steps actually attempted. -/
def Connect (config : DBConfig) (openErr pingErr : Option String) :
    Except String DBConfig × List ConnectStep :=
  let config := applyConnectDefaults config
  if config.maxIdleConns > config.maxOpenConns then
    (.error ("MaxIdleConns (" ++ toString config.maxIdleConns
      ++ ") cannot exceed MaxOpenConns (" ++ toString config.maxOpenConns ++ ")"), [])
  else
    match openErr with
    | some e => (.error ("failed to open database: " ++ e), [.openDB])
    | none =>
      match pingErr with
      | some e => (.error ("failed to ping database: " ++ e), [.openDB, .ping])
      | none => (.ok config, [.openDB, .ping])

/-! ## core: APIError and response writing (src/unnamed/part_001, src/core/response.go) -/

/-- Embedding of `core.APIError` (part_001 lines 21-26): status code, message,
optional detail (empty string = absent) and optional field map (association
list, empty = absent). -/
structure APIError where
  code : Int
  message : String
  detail : String
  fields : List (String × String)
deriving Repr, DecidableEq

/-- Go `NewAPIError` (part_001 lines 47-56); the Go variadic `detail ...string`
becomes a list, of which only the head is used. -/
def NewAPIError (code : Int) (message : String) (detail : List String) : APIError :=
  { code := code, message := message, detail := detail.headD "", fields := [] }

/-- JSON values, the serialization target of `encoding/json` as used by
`core.JSON`. -/
inductive Json where
  | num (n : Int) : Json
  | str (s : String) : Json
  | obj (fields : List (String × Json)) : Json
deriving Repr

/-- Field lookup in a JSON object. -/
def Json.getField : Json → String → Option Json
  | .obj fields, key => fields.lookup key
  | _, _ => none

/-- Marshalling of `APIError` under its struct tags
(`code`, `message`, `detail,omitempty`, `fields,omitempty`). -/
def APIError.toJson (e : APIError) : Json :=
  .obj ([("code", .num e.code), ("message", .str e.message)]
    ++ (if e.detail = "" then [] else [("detail", .str e.detail)])
    ++ (if e.fields = [] then [] else
      [("fields", .obj (e.fields.map (fun p => (p.1, .str p.2))))]))

/-- Writes performed against the boundary `http.ResponseWriter`. -/
inductive ResponseAction where
  | setHeader (key value : String) : ResponseAction
  | writeHeader (status : Int) : ResponseAction
  | write (body : Json) : ResponseAction
deriving Repr

/-- Structured-log entries, by level. -/
inductive LogEvent where
  | debug (msg : String) : LogEvent
  | info (msg : String) : LogEvent
  | warn (msg : String) : LogEvent
  | error (msg : String) : LogEvent
deriving Repr, DecidableEq

/-- Embedding of `core.JSON` (response.go lines 12-16): content-type header, status, body. -/
def coreJSON (status : Int) (data : Json) : List ResponseAction :=
  [.setHeader "Content-Type" "application/json", .writeHeader status, .write data]

/-- Embedding of `core.WriteAPIError` (response.go lines 68-101): logs by status band, then
writes with `core.JSON` at status `apiErr.Code` a one-key object binding
"error" to the marshalled `APIError`. -/
def WriteAPIError (apiErr : APIError) : List ResponseAction × List LogEvent :=
  (coreJSON apiErr.code (.obj [("error", apiErr.toJson)]),
    [if apiErr.code ≥ 500 then .error "API error response"
     else if apiErr.code ≥ 400 then .warn "API error response"
     else .info "API error response"])

/-- Embedding of `core.Error` (response.go lines 62-65). -/
def coreError (status : Int) (message : String) : List ResponseAction × List LogEvent :=
  WriteAPIError (NewAPIError status message [])

/-! ## Go errors and `errors.Is` against the context sentinels -/

/-- Go `error` values as the adapter can see them: the two `context` sentinel
errors, a `*core.APIError`, any other error (by its message), and a
`fmt.Errorf("...: %w", cause)` wrapper. -/
inductive GoError where
  | canceled : GoError
  | deadlineExceeded : GoError
  | apiError (e : APIError) : GoError
  | other (msg : String) : GoError
  | wrapped (msg : String) (cause : GoError) : GoError
deriving Repr, DecidableEq

/-- Embedding of `errors.Is(err, context.Canceled)`: true exactly when the unwrap chain
reaches the `context.Canceled` sentinel. -/
def GoError.isCanceled : GoError → Bool
  | .canceled => true
  | .wrapped _ cause => cause.isCanceled
  | _ => false

/-- Embedding of `errors.Is(err, context.DeadlineExceeded)`. -/
def GoError.isDeadlineExceeded : GoError → Bool
  | .deadlineExceeded => true
  | .wrapped _ cause => cause.isDeadlineExceeded
  | _ => false

/-- The Go type assertion `err.(*core.APIError)`: succeeds only when the
dynamic type is `*core.APIError`, with no unwrapping. -/
def GoError.asAPIError : GoError → Option APIError
  | .apiError e => some e
  | _ => none

/-! ## Adapter (src/unnamed/part_005 lines 31-90, the current revision with
request-context propagation; `src/handler/adapter.go` is the superseded
pre-v2.0.0 revision of the same function, without the `Context` field and
without the cancellation/timeout branches) -/

/-- Go `context.Context` handles, identified abstractly.  Go's `r.Context()`
never returns nil. -/
structure GoContext where
  id : Nat
deriving Repr, DecidableEq

/-- The boundary request: its context (cancellation signal) and path. -/
structure Request where
  ctx : GoContext
  path : String
deriving Repr, DecidableEq

/-- Opaque database and logger handles injected by the adapter. -/
structure DBHandle where
  id : Nat
deriving Repr, DecidableEq

structure LoggerHandle where
  id : Nat
deriving Repr, DecidableEq

/-- Embedding of `HandlerContext[ParamTypeT, BodyTypeT]` (part_005 lines
111-129).  The `Context` field is an interface value, nil when never
assigned, hence `Option GoContext`. -/
structure HandlerContext (P B : Type) [Inhabited P] [Inhabited B] where
  Context : Option GoContext
  DB : Option DBHandle
  Logger : Option LoggerHandle
  Params : Nullable P
  Body : Nullable B
  BodyRaw : Nullable (List Nat)
  Headers : Nullable (List (String × String))
  UserUUID : Nullable Nat
  CompanyUUID : Nullable Nat

/-- A composed typed handler, as observed by the adapter: given the context
and the request it performs some response writes and returns
`(ResponseBodyT, error)`. -/
def GoHandler (P B R : Type) [Inhabited P] [Inhabited B] : Type :=
  HandlerContext P B → Request → List ResponseAction × R × Option GoError

/-- The `HandlerContext` literal the adapter constructs (part_005 lines
47-53): the request context is propagated, dependencies injected, auth
fields absent; the remaining fields are left at their Go zero values
(absent Nullables, nil interface left `none` — but `Context` is always
assigned `r.Context()`). -/
def adaptCtx (P B : Type) [Inhabited P] [Inhabited B]
    (db : Option DBHandle) (logger : Option LoggerHandle) (r : Request) :
    HandlerContext P B :=
  { Context := some r.ctx
    DB := db
    Logger := logger
    Params := Nullable.mk default false
    Body := Nullable.mk default false
    BodyRaw := Nullable.mk default false
    Headers := Nullable.mk default false
    UserUUID := Nil Nat
    CompanyUUID := Nil Nat }

/-- The error-classification block of `AdaptHandler` (part_005 lines 57-85):
cancellation → informational log, no writes; deadline → 504 with structured
body; `*core.APIError` → written verbatim; anything else → generic 500. -/
def adaptHandleError (err : GoError) (_r : Request) :
    List ResponseAction × List LogEvent :=
  if err.isCanceled then
    ([], [.info "Request cancelled by client"])
  else if err.isDeadlineExceeded then
    let written := WriteAPIError (NewAPIError 504 "Request timeout" [])
    (written.1, .error "Request timeout" :: written.2)
  else
    match err.asAPIError with
    | some apiErr =>
      let written := WriteAPIError apiErr
      (written.1, .error "Handler error" :: written.2)
    | none =>
      let written := coreError 500 "Internal server error"
      (written.1, .error "Handler error" :: written.2)

/-- Embedding of `AdaptHandler` (part_005 lines 31-90): emits the debug log,
builds the context via `adaptCtx`, invokes the composed handler, and runs the
error classification on a non-nil error.  Returns all response writes (the
handler's own followed by the adapter's) and all log entries. -/
def AdaptHandler (P B R : Type) [Inhabited P] [Inhabited B]
    (db : Option DBHandle) (logger : Option LoggerHandle)
    (handler : GoHandler P B R) (r : Request) :
    List ResponseAction × List LogEvent :=
  let debugLog : LogEvent := .debug "AdaptHandler creating context"
  let ctx := adaptCtx P B db logger r
  let result := handler ctx r
  match result.2.2 with
  | some err =>
    let handled := adaptHandleError err r
    (result.1 ++ handled.1, debugLog :: handled.2)
  | none => (result.1, [debugLog])

/-! ## Middleware composition and route collection
(src/unnamed/part_005 lines 136-209) -/

/-- Embedding of `RouteInfo` (part_005 lines 138-144). -/
structure RouteInfo where
  method : String
  path : String
  summary : String
  description : String
  tags : List String
deriving Repr, DecidableEq

/-- A middleware together with the name Go's `getMiddlewareName` extracts for
it via runtime reflection (part_005 lines 255-292); runtime function-name
reflection has no shallow counterpart, so the reflected name is carried
alongside the function. -/
structure NamedMiddleware (H : Type) where
  name : String
  fn : H → H

/-- The middleware-application loop of `MakeHandler` (part_005 lines 192-195):
iterating i from the last index down to 0 with handler = middleware[i](handler),
producing `middleware[0] (middleware[1] (... (middleware[n-1] baseHandler)))`. -/
def applyMiddlewareLoop {H : Type} (middleware : List (NamedMiddleware H)) (handler : H) : H :=
  match middleware with
  | [] => handler
  | m :: rest => m.fn (applyMiddlewareLoop rest handler)

/-- Embedding of `PendingRoute` (part_005 lines 162-168), with the handler kept as the
composed function value. -/
structure PendingRoute (H : Type) where
  method : String
  path : String
  handler : H
  routeInfo : RouteInfo
  middlewareNames : List String

/-- Embedding of `MakeHandler` (part_005 lines 179-209, the v2 global-registry
revision under src/): composes the middleware with the reverse-iteration
loop, appends a `PendingRoute` to the route collection (the mutex-guarded
append modelled as list append on the explicit state), and returns the
composed handler. -/
def MakeHandler {H : Type} (globalRoutes : List (PendingRoute H))
    (routeInfo : RouteInfo) (baseHandler : H)
    (middleware : List (NamedMiddleware H)) :
    List (PendingRoute H) × H :=
  let middlewareNames := middleware.map (fun mw => mw.name)
  let handler := applyMiddlewareLoop middleware baseHandler
  (globalRoutes ++
    [PendingRoute.mk routeInfo.method routeInfo.path handler routeInfo middlewareNames],
    handler)

/-- Trace-recording handlers used to observe middleware execution order: a
handler maps the event log accumulated so far to the extended log. -/
def TraceHandler : Type := List String → List String

/-- A base handler that records its own execution. -/
def traceBase (name : String) : TraceHandler :=
  fun log => log ++ [name]

/-- A middleware that records a pre-processing event, runs the next handler,
then records a post-processing event. -/
def traceMw (name : String) : NamedMiddleware TraceHandler :=
  { name := name
    fn := fun next => fun log => next (log ++ [name ++ "-pre"]) ++ [name ++ "-post"] }

/-! ## The v3.0 per-instance Registry

Modelled from the spec: the current `handler.Registry` / `NewRegistry` /
`Registry.GetRoutes` implementation and the registry-taking `MakeHandler`
are exercised by the repository's tests (src/unnamed/part_006) and callers
(src/swagger/routes.go, src/middleware/typed/json.go) but their defining file
is not under src/.  Following spec §4.3: `new()` yields an empty registry
independent of all others, `register` appends one RouteDefinition under the
registry's lock, and `getRoutes` returns a defensive copy.  The process-wide
heap of live registries is an explicit store, a fresh registry being a fresh
index; mutex-serialized concurrent registration is modelled by running the
registration calls sequentially in an arbitrary interleaving order. -/

/-- Route records held by a registry; method and path identify the entry. -/
structure RouteRecord where
  method : String
  path : String
deriving Repr, DecidableEq

/-- The store of all live registries: one route list per registry index. -/
structure RegistryStore where
  regs : List (List RouteRecord)
deriving Repr, DecidableEq

/-- Modelled from the spec: `NewRegistry()` — allocates a fresh, empty
registry, independent of all existing ones, returning the updated store and
the new registry's handle. -/
def newRegistry (s : RegistryStore) : RegistryStore × Nat :=
  ({ regs := s.regs ++ [[]] }, s.regs.length)

/-- Appends a route to the list at the given index, leaving other lists
untouched. -/
def registerAt : List (List RouteRecord) → Nat → RouteRecord → List (List RouteRecord)
  | [], _, _ => []
  | rs :: rest, 0, route => (rs ++ [route]) :: rest
  | rs :: rest, n + 1, route => rs :: registerAt rest n route

/-- Modelled from the spec: `register` — the registration performed by the
registry-taking `MakeHandler(reg, ...)`: appends one RouteDefinition to the
target registry's list under its lock. -/
def registerRoute (s : RegistryStore) (reg : Nat) (route : RouteRecord) : RegistryStore :=
  { regs := registerAt s.regs reg route }

/-- Modelled from the spec: `getRoutes()` — a defensive copy of the
registry's current route list. -/
def getRoutes (s : RegistryStore) (reg : Nat) : List RouteRecord :=
  s.regs.getD reg []

/-- Mutex-serialized execution of a batch of registration calls against one
registry: the mutual-exclusion lock makes the concurrent calls take effect
one at a time, in some interleaving order. -/
def runRegistrations (reg : List RouteRecord) (order : List RouteRecord) : List RouteRecord :=
  order.foldl (fun routes route => routes ++ [route]) reg

/-! ## Theorems -/

/-- C9: for every type `T`, value `v` and fallback `d`, the present optional
`NewNullable v` has `HasValue = true` and `ValueOrDefault = v`; the absent
optional `Nil T` has `HasValue = false`, `ValueOrDefault` equal to the zero
value of `T`, and `ValueOr d = d`.  All accessors are pure total functions,
so none has side effects or fails. -/
theorem c9_nullable_accessors (T : Type) [Inhabited T] (v d : T) :
    (NewNullable v).HasValue = true
    ∧ (NewNullable v).ValueOrDefault = v
    ∧ (Nil T).HasValue = false
    ∧ (Nil T).ValueOrDefault = (default : T)
    ∧ (Nil T).ValueOr d = d := by
  refine ⟨rfl, ?_, rfl, ?_, ?_⟩ <;>
    simp [NewNullable, Nil, Nullable.HasValue, Nullable.ValueOrDefault, Nullable.ValueOr]

/-- C10: calling `Value` on an absent Nullable panics with the fixed message
"japi-core: attempted to access Nullable value when HasValue is false" — a
recoverable panic value, not a process exit and not an error return — while
calling `Value` on a present Nullable returns the value and never panics. -/
theorem c10_value_fail_fast (T : Type) [Inhabited T] (v : T) :
    (Nil T).Value =
      PanicOr.panicked "japi-core: attempted to access Nullable value when HasValue is false"
    ∧ (NewNullable v).Value = PanicOr.returned v := by
  exact ⟨rfl, rfl⟩

/-- C7: for every callback passed to `WithTx` (with `Begin` succeeding, so
that the callback actually runs): if the callback panics, the transaction is
rolled back before the same panic value propagates out (the events end in
`rolledBack` and the result re-raises the panic value unchanged), and
`Commit` is never reached; if the callback returns an error and the rollback
succeeds, the transaction is rolled back and exactly that error is
returned. -/
theorem c7_withtx_rollback (T V : Type) (tx : TxBehavior) (p : V) (e : String) :
    ((WithTx (T := T) none tx (FnOutcome.panicked p)) =
        (.panicked p, [.beganTx, .ranFn, .rolledBack])
      ∧ TxEvent.committed ∉ (WithTx (T := T) none tx (FnOutcome.panicked p)).2)
    ∧ (tx.rollbackErr = none →
        WithTx (T := T) (V := V) none tx (FnOutcome.err e) =
          (.err e, [.beganTx, .ranFn, .rolledBack])) := by
  refine ⟨⟨rfl, by simp [WithTx]⟩, fun hrb => ?_⟩
  simp [WithTx, hrb]

/-- Witness for C7: a concrete panicking callback is rolled back, never
committed, and re-raises "boom"; a concrete erroring callback is rolled back
and returns its own error. -/
theorem c7_withtx_rollback_witness :
    (WithTx (T := Nat) none ⟨none, none⟩ (FnOutcome.panicked "boom") =
        (.panicked "boom", [.beganTx, .ranFn, .rolledBack])
      ∧ TxEvent.committed ∉ (WithTx (T := Nat) none ⟨none, none⟩
          (FnOutcome.panicked "boom")).2)
    ∧ WithTx (T := Nat) (V := String) none ⟨none, none⟩ (FnOutcome.err "insert failed") =
        (.err "insert failed", [.beganTx, .ranFn, .rolledBack]) :=
  ⟨(c7_withtx_rollback Nat String ⟨none, none⟩ "boom" "insert failed").1,
    (c7_withtx_rollback Nat String ⟨none, none⟩ "boom" "insert failed").2 rfl⟩

/-- C8: for every configuration in which, after the documented defaults
(25/25/5min/5min) are applied to unset (zero) fields, `maxIdleConns` exceeds
`maxOpenConns`, `Connect` returns the descriptive configuration error naming
both limits, and the step list is empty: no connection attempt (`sql.Open`,
`Ping`) is made against the database. -/
theorem c8_connect_validation (c : DBConfig) (oe pe : Option String)
    (h : (applyConnectDefaults c).maxIdleConns > (applyConnectDefaults c).maxOpenConns) :
    Connect c oe pe =
      (.error ("MaxIdleConns (" ++ toString (applyConnectDefaults c).maxIdleConns
        ++ ") cannot exceed MaxOpenConns ("
        ++ toString (applyConnectDefaults c).maxOpenConns ++ ")"), []) := by
  unfold Connect
  simp [h]

/-- Witness for C8: a configuration with `maxOpenConns = 10` and
`maxIdleConns = 20` (both set, so defaults leave them unchanged) fails
validation with no connection attempt. -/
theorem c8_connect_validation_witness :
    Connect ⟨"localhost", 5432, "u", "pw", "appdb", "disable", 10, 20, 1, 1⟩ none none =
      (.error ("MaxIdleConns ("
        ++ toString (applyConnectDefaults
            ⟨"localhost", 5432, "u", "pw", "appdb", "disable", 10, 20, 1, 1⟩).maxIdleConns
        ++ ") cannot exceed MaxOpenConns ("
        ++ toString (applyConnectDefaults
            ⟨"localhost", 5432, "u", "pw", "appdb", "disable", 10, 20, 1, 1⟩).maxOpenConns
        ++ ")"), []) :=
  c8_connect_validation ⟨"localhost", 5432, "u", "pw", "appdb", "disable", 10, 20, 1, 1⟩
    none none (by decide)

/-- In a single-cause wrap chain (the `fmt.Errorf("%w")` structure this code
base uses), an error whose chain reaches `context.DeadlineExceeded` cannot
also reach `context.Canceled`. -/
theorem GoError.not_canceled_of_deadline :
    ∀ e : GoError, e.isDeadlineExceeded = true → e.isCanceled = false := by
  intro e h
  induction e with
  | canceled => exact absurd h (by simp [GoError.isDeadlineExceeded])
  | deadlineExceeded => rfl
  | apiError e => rfl
  | other m => rfl
  | wrapped m cause ih =>
    simp only [GoError.isDeadlineExceeded] at h
    simpa [GoError.isCanceled] using ih h

/-- C3: for every inbound request, the `HandlerContext` the adapter constructs
has its `Context` field set to the request's cancellation signal (it is
`some r.ctx`, hence never unset), and `AdaptHandler` invokes the composed
handler on exactly that context. -/
theorem c3_context_always_set (P B : Type) [Inhabited P] [Inhabited B]
    (db : Option DBHandle) (lg : Option LoggerHandle) (r : Request) :
    (adaptCtx P B db lg r).Context = some r.ctx
    ∧ (adaptCtx P B db lg r).Context ≠ none
    ∧ ∀ (R : Type) (h : GoHandler P B R),
        AdaptHandler P B R db lg h r =
          (match (h (adaptCtx P B db lg r) r).2.2 with
           | some err =>
             ((h (adaptCtx P B db lg r) r).1 ++ (adaptHandleError err r).1,
               LogEvent.debug "AdaptHandler creating context" :: (adaptHandleError err r).2)
           | none =>
             ((h (adaptCtx P B db lg r) r).1,
               [LogEvent.debug "AdaptHandler creating context"])) := by
  refine ⟨rfl, by simp [adaptCtx], fun R h => ?_⟩
  rfl

/-- C4: whenever the composed handler returns an error whose unwrap chain
reaches the cancellation sentinel, the adapter performs no response writes of
its own (the output writes are exactly the handler's own) and writes no
status; beyond the unconditional context-creation debug entry, it logs only
the informational "Request cancelled by client" entry. -/
theorem c4_cancellation_silent (P B R : Type) [Inhabited P] [Inhabited B]
    (db : Option DBHandle) (lg : Option LoggerHandle) (h : GoHandler P B R)
    (r : Request) (acts : List ResponseAction) (ret : R) (err : GoError)
    (hrun : h (adaptCtx P B db lg r) r = (acts, ret, some err))
    (hc : err.isCanceled = true) :
    AdaptHandler P B R db lg h r =
      (acts, [LogEvent.debug "AdaptHandler creating context",
        LogEvent.info "Request cancelled by client"]) := by
  have hdef : AdaptHandler P B R db lg h r =
      match (h (adaptCtx P B db lg r) r).2.2 with
      | some e =>
        ((h (adaptCtx P B db lg r) r).1 ++ (adaptHandleError e r).1,
          LogEvent.debug "AdaptHandler creating context" :: (adaptHandleError e r).2)
      | none =>
        ((h (adaptCtx P B db lg r) r).1, [LogEvent.debug "AdaptHandler creating context"]) := rfl
  rw [hdef, hrun]
  simp [adaptHandleError, hc]

/-- Witness for C4: a concrete handler returning an error wrapping
`context.Canceled` produces no writes and only the debug + informational log
entries. -/
theorem c4_cancellation_silent_witness :
    AdaptHandler Nat Nat Nat none none
        (fun _ _ => ([], 0, some (GoError.wrapped "query aborted" GoError.canceled)))
        ⟨⟨0⟩, "/users"⟩ =
      ([], [LogEvent.debug "AdaptHandler creating context",
        LogEvent.info "Request cancelled by client"]) :=
  c4_cancellation_silent Nat Nat Nat none none
    (fun _ _ => ([], 0, some (GoError.wrapped "query aborted" GoError.canceled)))
    ⟨⟨0⟩, "/users"⟩ [] 0 (GoError.wrapped "query aborted" GoError.canceled) rfl rfl

/-- C5: whenever the composed handler returns an error whose unwrap chain
reaches the deadline-exceeded sentinel, the adapter writes a 504
Gateway-Timeout response whose body is the structured JSON error object, and
that body's error object carries the status code 504. -/
theorem c5_deadline_504 (P B R : Type) [Inhabited P] [Inhabited B]
    (db : Option DBHandle) (lg : Option LoggerHandle) (h : GoHandler P B R)
    (r : Request) (acts : List ResponseAction) (ret : R) (err : GoError)
    (hrun : h (adaptCtx P B db lg r) r = (acts, ret, some err))
    (hd : err.isDeadlineExceeded = true) :
    AdaptHandler P B R db lg h r =
      (acts ++ [ResponseAction.setHeader "Content-Type" "application/json",
        ResponseAction.writeHeader 504,
        ResponseAction.write (Json.obj [("error",
          Json.obj [("code", Json.num 504), ("message", Json.str "Request timeout")])])],
        [LogEvent.debug "AdaptHandler creating context", LogEvent.error "Request timeout",
          LogEvent.error "API error response"])
    ∧ ((Json.obj [("code", Json.num 504),
        ("message", Json.str "Request timeout")]).getField "code") = some (Json.num 504) := by
  refine ⟨?_, rfl⟩
  have hdef : AdaptHandler P B R db lg h r =
      match (h (adaptCtx P B db lg r) r).2.2 with
      | some e =>
        ((h (adaptCtx P B db lg r) r).1 ++ (adaptHandleError e r).1,
          LogEvent.debug "AdaptHandler creating context" :: (adaptHandleError e r).2)
      | none =>
        ((h (adaptCtx P B db lg r) r).1, [LogEvent.debug "AdaptHandler creating context"]) := rfl
  rw [hdef, hrun]
  simp [adaptHandleError, GoError.not_canceled_of_deadline err hd, hd,
    WriteAPIError, NewAPIError, coreJSON, APIError.toJson]

/-- Witness for C5: a concrete handler returning an error wrapping
`context.DeadlineExceeded` produces the 504 structured response. -/
theorem c5_deadline_504_witness :
    AdaptHandler Nat Nat Nat none none
        (fun _ _ => ([], 0, some (GoError.wrapped "query timed out" GoError.deadlineExceeded)))
        ⟨⟨0⟩, "/reports"⟩ =
      ([ResponseAction.setHeader "Content-Type" "application/json",
        ResponseAction.writeHeader 504,
        ResponseAction.write (Json.obj [("error",
          Json.obj [("code", Json.num 504), ("message", Json.str "Request timeout")])])],
        [LogEvent.debug "AdaptHandler creating context", LogEvent.error "Request timeout",
          LogEvent.error "API error response"])
    ∧ ((Json.obj [("code", Json.num 504),
        ("message", Json.str "Request timeout")]).getField "code") = some (Json.num 504) := by
  have h := c5_deadline_504 Nat Nat Nat none none
    (fun _ _ => ([], 0, some (GoError.wrapped "query timed out" GoError.deadlineExceeded)))
    ⟨⟨0⟩, "/reports"⟩ [] 0 (GoError.wrapped "query timed out" GoError.deadlineExceeded) rfl rfl
  simpa using h

/-- Route info used to drive `MakeHandler` in the composition-order
evaluation. -/
def traceRouteInfo : RouteInfo :=
  { method := "GET", path := "/trace", summary := "", description := "", tags := [] }

/-- C1 (counter-evidence): composing the middleware list `[A, B]` around base
handler `H` with `MakeHandler` and invoking the result executes
A-pre, B-pre, H, B-post, A-post — the FIRST-listed middleware is the
outermost wrapper — and not the order B-pre, A-pre, H, A-post, B-post that
the claim (and the function's own doc comment "Execution order: last
middleware -> ... -> first middleware -> baseHandler") states. -/
theorem c1_composition_order_evaluation :
    ((MakeHandler ([] : List (PendingRoute TraceHandler)) traceRouteInfo
        (traceBase "H") [traceMw "A", traceMw "B"]).2) []
      = ["A-pre", "B-pre", "H", "B-post", "A-post"]
    ∧ ((MakeHandler ([] : List (PendingRoute TraceHandler)) traceRouteInfo
        (traceBase "H") [traceMw "A", traceMw "B"]).2) []
      ≠ ["B-pre", "A-pre", "H", "A-post", "B-post"] := by
  exact ⟨rfl, by decide⟩

/-- Auxiliary: appending into one registry slot leaves every other slot's
route list unchanged. -/
theorem registerAt_getD_ne (l : List (List RouteRecord)) (route : RouteRecord) :
    ∀ x y : Nat, x ≠ y → (registerAt l x route).getD y [] = l.getD y [] := by
  induction l with
  | nil => intro x y _; cases x <;> rfl
  | cons rs rest ih =>
    intro x y hxy
    cases x with
    | zero =>
      cases y with
      | zero => exact absurd rfl hxy
      | succ m => simp [registerAt]
    | succ n =>
      cases y with
      | zero => simp [registerAt]
      | succ m =>
        simp only [registerAt, List.getD_cons_succ]
        exact ih n m (fun hnm => hxy (by rw [hnm]))

/-- C2: registries are isolated.  Registering a route against registry `x`
never changes what `getRoutes` returns for a different registry `y`, and two
independently-created registries (successive `newRegistry` allocations) are
distinct, so their route collections never interfere. -/
theorem c2_registry_isolation :
    (∀ (s : RegistryStore) (route : RouteRecord) (x y : Nat), x ≠ y →
      getRoutes (registerRoute s x route) y = getRoutes s y)
    ∧ ∀ s : RegistryStore, (newRegistry (newRegistry s).1).2 ≠ (newRegistry s).2 := by
  constructor
  · intro s route x y hxy
    exact registerAt_getD_ne s.regs route x y hxy
  · intro s
    simp [newRegistry]

/-- Witness for C2: with two freshly-created registries, registering a route
into the first leaves the second's (empty) route list unchanged, and the two
handles are distinct. -/
theorem c2_registry_isolation_witness :
    getRoutes (registerRoute ⟨[[], []]⟩ 0 ⟨"GET", "/public"⟩) 1 = getRoutes ⟨[[], []]⟩ 1
    ∧ (newRegistry (newRegistry ⟨[]⟩).1).2 ≠ (newRegistry ⟨[]⟩).2 :=
  ⟨c2_registry_isolation.1 ⟨[[], []]⟩ ⟨"GET", "/public"⟩ 0 1 (by decide),
    c2_registry_isolation.2 ⟨[]⟩⟩

/-- Auxiliary: serialized registration appends the calls in their
interleaving order after the existing routes. -/
theorem runRegistrations_eq_append (order : List RouteRecord) :
    ∀ reg : List RouteRecord, runRegistrations reg order = reg ++ order := by
  induction order with
  | nil => intro reg; simp [runRegistrations]
  | cons route rest ih =>
    intro reg
    simp only [runRegistrations, List.foldl_cons] at *
    rw [ih (reg ++ [route])]
    simp

/-- C6: registering `N` routes concurrently into one empty registry — the
mutex serializes the calls, so the effect is the `N` register calls applied
in some interleaving order, a permutation of the calls — yields exactly `N`
entries, and the resulting route list is a permutation of the registered
routes: none lost, none duplicated.  This holds for every `N`, in particular
all `N ≤ 100`. -/
theorem c6_concurrent_registration (calls order : List RouteRecord)
    (hperm : order.Perm calls) :
    (runRegistrations [] order).length = calls.length
    ∧ (runRegistrations [] order).Perm calls := by
  have hrun : runRegistrations [] order = order := by
    simpa using runRegistrations_eq_append order []
  rw [hrun]
  exact ⟨hperm.length_eq, hperm⟩

/-- Witness for C6: three registration calls arriving in a shuffled
interleaving still produce exactly three entries, a permutation of the
calls. -/
theorem c6_concurrent_registration_witness :
    (runRegistrations []
        [⟨"GET", "/c"⟩, ⟨"GET", "/a"⟩, ⟨"GET", "/b"⟩]).length =
      ([⟨"GET", "/a"⟩, ⟨"GET", "/b"⟩, ⟨"GET", "/c"⟩] : List RouteRecord).length
    ∧ (runRegistrations []
        [⟨"GET", "/c"⟩, ⟨"GET", "/a"⟩, ⟨"GET", "/b"⟩]).Perm
      [⟨"GET", "/a"⟩, ⟨"GET", "/b"⟩, ⟨"GET", "/c"⟩] :=
  c6_concurrent_registration
    [⟨"GET", "/a"⟩, ⟨"GET", "/b"⟩, ⟨"GET", "/c"⟩]
    [⟨"GET", "/c"⟩, ⟨"GET", "/a"⟩, ⟨"GET", "/b"⟩]
    (by decide)

end Japi
